import Mathlib

/-!
Shallow embedding of the ArduRoller balance controller (src/main.cpp).

The C program is a single timer ISR that, each tick:
reads the gyro and two accelerometer axes, converts them to physical
units, runs the x-axis accelerometer through a 2nd-order IIR filter,
runs a fall-detection / re-level / balancing state machine, computes a
PID-style speed command, maps it to motor direction and duty outputs,
and staggers three trim-pot reads over a 1500-tick cycle.

C `float` values are modelled as exact rationals (ℚ); ADC readings are
modelled as integers.  `sqrtf` is modelled by the computable `Rat.sqrt`
(the claims settled here depend only on `Rat.sqrt 0 = 0` and
`0 ≤ Rat.sqrt q`, which hold for any square-root model).
-/

namespace ArduRoller

/-- `#define ADC_RANGE (1024)` -/
def ADC_RANGE : ℚ := 1024

/-- `#define GYRO_MAX_DEG_PER_SEC (150.0)` -/
def GYRO_MAX_DEG_PER_SEC : ℚ := 150

/-- `#define GYRO_DEG_PER_ADC_UNIT (GYRO_MAX_DEG_PER_SEC * 2 / ADC_RANGE)` -/
def GYRO_DEG_PER_ADC_UNIT : ℚ := GYRO_MAX_DEG_PER_SEC * 2 / ADC_RANGE

/-- `#define GYRO_RAD_PER_ADC_UNIT (GYRO_DEG_PER_ADC_UNIT * 0.0174532925)` -/
def GYRO_RAD_PER_ADC_UNIT : ℚ := GYRO_DEG_PER_ADC_UNIT * 0.0174532925

/-- `#define ACCEL_MAX_G (1.7)` -/
def ACCEL_MAX_G : ℚ := 1.7

/-- `#define ACCEL_G_PER_ADC_UNIT (ACCEL_MAX_G * 2 / ADC_RANGE)` -/
def ACCEL_G_PER_ADC_UNIT : ℚ := ACCEL_MAX_G * 2 / ADC_RANGE

/-- `const float X_OFFSET = 8;` -/
def X_OFFSET : ℚ := 8

/-- `#define GAIN 1.013464636e+03` (x-filter input gain divisor) -/
def GAIN : ℚ := 1013.464636

/-- `#define MOTOR_A_FACTOR 1` -/
def MOTOR_A_FACTOR : ℚ := 1

/-- `#define MOTOR_B_FACTOR 1` -/
def MOTOR_B_FACTOR : ℚ := 1

/-- `#define D_TILT_FACT ((3.5 / 512.0) * d_tilt_pot / GYRO_RAD_PER_ADC_UNIT)` —
the derivative gain, a function of the `d_tilt_pot` trim value. -/
def D_TILT_FACT (d_tilt_pot : ℤ) : ℚ :=
  (3.5 / 512) * (d_tilt_pot : ℚ) / GYRO_RAD_PER_ADC_UNIT

/-- `#define TILT_FACT ((0.025 / 512.0) * tilt_pot / GYRO_RAD_PER_ADC_UNIT)` —
the proportional gain, a function of the `tilt_pot` trim value. -/
def TILT_FACT (tilt_pot : ℤ) : ℚ :=
  (0.025 / 512) * (tilt_pot : ℚ) / GYRO_RAD_PER_ADC_UNIT

/-- `#define TILT_INT_FACT ((0.002 / 512.0) * 512.0 / GYRO_RAD_PER_ADC_UNIT)` —
the integral gain.  Note the source multiplies by the literal `512.0`,
not by any trim-pot variable. -/
def TILT_INT_FACT : ℚ := (0.002 / 512) * 512 / GYRO_RAD_PER_ADC_UNIT

/-- `#define MAX_TILT_INT (300.0 * GYRO_RAD_PER_ADC_UNIT / TILT_INT_FACT)` -/
def MAX_TILT_INT : ℚ := 300 * GYRO_RAD_PER_ADC_UNIT / TILT_INT_FACT

/-- Delay line of one 2nd-order IIR filter: `static float xv[3], yv[3]`. -/
structure FilterState where
  xv0 : ℚ
  xv1 : ℚ
  xv2 : ℚ
  yv0 : ℚ
  yv1 : ℚ
  yv2 : ℚ
deriving Repr, DecidableEq

/-- Power-on filter state: C statics are zero-initialised. -/
def FilterState.init : FilterState := ⟨0, 0, 0, 0, 0, 0⟩

/-- `static float filterx(float in)` — shift the delay line, push
`in / GAIN`, and combine the last three inputs and two outputs.
Returns the updated delay line and the new output `yv[2]`. -/
def filterx (s : FilterState) (input : ℚ) : FilterState × ℚ :=
  let xv0 := s.xv1
  let xv1 := s.xv2
  let xv2 := input / GAIN
  let yv0 := s.yv1
  let yv1 := s.yv2
  let yv2 := (xv0 + xv2) + 2 * xv1 + (-0.9131487721) * yv0 + 1.9092019151 * yv1
  (⟨xv0, xv1, xv2, yv0, yv1, yv2⟩, yv2)

/-- Run `filterx` over a list of input samples, collecting the outputs. -/
def filterxList (s : FilterState) : List ℚ → List ℚ
  | [] => []
  | i :: is =>
    let r := filterx s i
    r.2 :: filterxList r.1 is

/-- The `analogRead` results available on one tick: the three primary
sensors and the three trim pots (pins A3, A4, A5). -/
structure Input where
  gyro : ℤ
  x : ℤ
  y : ℤ
  a3 : ℤ
  a4 : ℤ
  a5 : ℤ
deriving Repr, DecidableEq

/-- All mutable state that survives between ISR invocations: the ISR's
`static` locals, the x-filter delay line, and the trim-pot globals. -/
structure St where
  tilt_rads : ℚ
  x_filt_gs : ℚ
  tilt_int_rads : ℚ
  last_speed : ℚ
  reset_complete : Bool
  loop_count : ℤ
  fx : FilterState
  d_tilt_pot : ℤ
  tilt_pot : ℤ
  gyro_offset_pot : ℤ
deriving Repr, DecidableEq

/-- Power-on state: statics zero-initialised, pots default to 512. -/
def St.init : St :=
  { tilt_rads := 0
    x_filt_gs := 0
    tilt_int_rads := 0
    last_speed := 0
    reset_complete := false
    loop_count := 0
    fx := FilterState.init
    d_tilt_pot := 512
    tilt_pot := 512
    gyro_offset_pot := 512 }

/-- What the ISR writes to the motor pins on one tick, together with the
pre-mapped speed command and whether the fall branch was taken. -/
structure Output where
  dir_a : Bool
  dir_b : Bool
  motor_a_speed : ℤ
  motor_b_speed : ℤ
  speedCmd : ℚ
  fallen : Bool
deriving Repr, DecidableEq

/-- `x_gs = ACCEL_G_PER_ADC_UNIT * (x_reading - 512 + X_OFFSET)` -/
def xGsOf (x : ℤ) : ℚ := ACCEL_G_PER_ADC_UNIT * ((x : ℚ) - 512 + X_OFFSET)

/-- `y_gs = ACCEL_G_PER_ADC_UNIT * (y_reading - 512)` -/
def yGsOf (y : ℤ) : ℚ := ACCEL_G_PER_ADC_UNIT * ((y : ℚ) - 512)

/-- `gyro_offset = ((gyro_offset_pot - 512) * 0.1)` -/
def gyroOffsetOf (pot : ℤ) : ℚ := ((pot : ℚ) - 512) * 0.1

/-- `d_tilt_rads = GYRO_RAD_PER_ADC_UNIT * (512 - gyro_reading + gyro_offset)` -/
def dTiltRadsOf (pot gyro : ℤ) : ℚ :=
  GYRO_RAD_PER_ADC_UNIT * (512 - (gyro : ℚ) + gyroOffsetOf pot)

/-- The fall-detection test `y_gs < 0.1 && abs(x_filt_gs) > 0.6`, where
`x_filt_gs` is this tick's filter output computed from the stored delay
line and this tick's x reading. -/
def fallenAt (s : St) (u : Input) : Bool :=
  decide (yGsOf u.y < 0.1) && decide (0.6 < |(filterx s.fx (xGsOf u.x)).2|)

/-- The re-level deadband test `-0.02 < x_gs && x_gs < 0.02`. -/
def deadbandB (q : ℚ) : Bool :=
  decide (-0.02 < q) && decide (q < 0.02)

/-- The two saturation tests on `tilt_int_rads` after integration. -/
def clampInt (q : ℚ) : ℚ :=
  let q1 := if MAX_TILT_INT < q then MAX_TILT_INT else q
  if q1 < -MAX_TILT_INT then -MAX_TILT_INT else q1

/-- The speed command of the balancing branch:
`tilt_rads * TILT_FACT + tilt_int_rads * TILT_INT_FACT + d_tilt_rads * D_TILT_FACT`. -/
def controlSpeed (tilt tiltInt dTilt : ℚ) (tiltPot dTiltPot : ℤ) : ℚ :=
  tilt * TILT_FACT tiltPot + tiltInt * TILT_INT_FACT + dTilt * D_TILT_FACT dTiltPot

/-- Result of the three-way `if` on the fall / re-level / balancing path. -/
structure Ctl where
  speed : ℚ
  tilt_rads : ℚ
  tilt_int_rads : ℚ
  reset_complete : Bool
  last_speed : ℚ
deriving Repr, DecidableEq

/-- The state-machine branch of the ISR (`if (y_gs < 0.1 && ...)` /
`else if (!reset_complete)` / `else`): fall shuts the speed to 0 and
clears `reset_complete`; awaiting-upright seeds the tilt estimate inside
the deadband; balancing integrates, clamps and runs the control law. -/
def controlStep (s : St) (x_gs d_tilt_rads x_filt_gs : ℚ) (fallen : Bool) : Ctl :=
  if fallen then
    { speed := 0
      tilt_rads := s.tilt_rads
      tilt_int_rads := s.tilt_int_rads
      reset_complete := false
      last_speed := s.last_speed }
  else if s.reset_complete = false then
    if deadbandB x_gs then
      { speed := 0
        tilt_rads := x_gs
        tilt_int_rads := 0
        reset_complete := true
        last_speed := s.last_speed }
    else
      { speed := 0
        tilt_rads := s.tilt_rads
        tilt_int_rads := s.tilt_int_rads
        reset_complete := s.reset_complete
        last_speed := s.last_speed }
  else
    let tilt := s.tilt_rads + d_tilt_rads + x_filt_gs
    let ti := clampInt (s.tilt_int_rads + tilt)
    let sp := controlSpeed tilt ti d_tilt_rads s.tilt_pot s.d_tilt_pot
    { speed := sp
      tilt_rads := tilt
      tilt_int_rads := ti
      reset_complete := s.reset_complete
      last_speed := sp }

/-- C `(long int)` conversion of a float: truncation toward zero. -/
def truncQ (q : ℚ) : ℤ := if 0 ≤ q then ⌊q⌋ else ⌈q⌉

/-- `speed = 7 * sqrt(abs(speed)); if (speed > 0xff) speed = 0xff;` -/
def capSpeed (speed : ℚ) : ℚ :=
  let speed1 := 7 * Rat.sqrt |speed|
  if 255 < speed1 then 255 else speed1

/-- `if (motor_a_speed > 0xff) motor_a_speed = 0xff;` -/
def clampDuty (m : ℤ) : ℤ := if 255 < m then 255 else m

/-- The output mapper: `speed = 7 * sqrt(abs(speed))`, cap at 255, scale
per motor, convert to `long int` and clamp each channel to 255. -/
def mapSpeed (speed : ℚ) : ℤ × ℤ :=
  (clampDuty (truncQ (capSpeed speed * MOTOR_A_FACTOR)),
   clampDuty (truncQ (capSpeed speed * MOTOR_B_FACTOR)))

/-- The state-machine step of one ISR invocation, with this tick's
converted and filtered inputs filled in. -/
def ctlOf (s : St) (u : Input) : Ctl :=
  controlStep s (xGsOf u.x) (dTiltRadsOf s.gyro_offset_pot u.gyro)
    (filterx s.fx (xGsOf u.x)).2 (fallenAt s u)

/-- One invocation of `ISR(TIMER1_OVF_vect)`: unit conversion, x-filter,
state machine, direction and duty output, and the staggered trim-pot
sampling (`loop_count` slots 500 / 1000 / 1500; the three slot values are
distinct, so the `else if` chain is equivalent to the per-field tests
below). -/
def tick (s : St) (u : Input) : St × Output :=
  let fr := filterx s.fx (xGsOf u.x)
  let c := ctlOf s u
  let m := mapSpeed c.speed
  ({ tilt_rads := c.tilt_rads
     x_filt_gs := fr.2
     tilt_int_rads := c.tilt_int_rads
     last_speed := c.last_speed
     reset_complete := c.reset_complete
     loop_count := (if s.loop_count = 1500 then 0 else s.loop_count) + 1
     fx := fr.1
     d_tilt_pot := if s.loop_count = 500 then u.a3 else s.d_tilt_pot
     tilt_pot := if s.loop_count = 1000 then u.a5 else s.tilt_pot
     gyro_offset_pot := if s.loop_count = 1500 then u.a4 else s.gyro_offset_pot },
   { dir_a := !decide (c.speed < 0)
     dir_b := !decide (c.speed < 0)
     motor_a_speed := m.1
     motor_b_speed := m.2
     speedCmd := c.speed
     fallen := fallenAt s u })

/-- State after `t` ticks from `s` under input stream `u`. -/
def run (s : St) (u : ℕ → Input) : ℕ → St
  | 0 => s
  | t + 1 => (tick (run s u t) (u t)).1

/-- Pin writes performed on tick `t` (0-indexed). -/
def outAt (s : St) (u : ℕ → Input) (t : ℕ) : Output := (tick (run s u t) (u t)).2

/-! Concrete states and input streams used to instantiate the theorems
below on closed inputs.  ADC readings are kept inside the hardware range
`[0, 1023]`: reading 504 makes `x_gs = 0` (because of `X_OFFSET = 8`),
reading 512 makes `y_gs = 0` and zeroes the gyro rate, reading 1023
drives `x_gs ≈ 1.72` or `y_gs ≈ 1.70`. -/

/-- A filter delay line whose most recent output is 1, so that the next
output is about `1.909` — above the 0.6 fall threshold. -/
def fxPrimed : FilterState := ⟨0, 0, 0, 0, 0, 1⟩

/-- Power-on state with the primed filter delay line. -/
def stPrimed : St := { St.init with fx := fxPrimed }

/-- Constant input stream: `y_gs = 0` and a hard-right x reading, out of
the deadband; with `stPrimed` the first tick trips fall detection. -/
def uFall : ℕ → Input := fun _ => ⟨512, 1023, 512, 0, 0, 0⟩

/-- One tick of the same fall-inducing input. -/
def inpFall : Input := ⟨512, 1023, 512, 0, 0, 0⟩

/-- `x_gs = 0` (inside the deadband) with the vehicle upright
(`y_gs ≈ 1.70`): the re-level input. -/
def inpLevel : Input := ⟨512, 504, 1023, 0, 0, 0⟩

/-- Upright but far from level: `x_gs ≈ 1.72` never enters the deadband. -/
def uNoBand : ℕ → Input := fun _ => ⟨512, 1023, 1023, 0, 0, 0⟩

/-- A run that re-levels on tick 0, balances through tick 19 with a
hard-right x reading (growing the filter output and saturating the tilt
integral at its clamp), then topples on tick 20 (`y_gs = 0` with the
filter output ≈ 0.72 > 0.6). -/
def uC7 : ℕ → Input := fun t =>
  if t = 0 then ⟨512, 504, 1023, 0, 0, 0⟩
  else if t = 20 then ⟨512, 1023, 512, 0, 0, 0⟩
  else ⟨512, 1023, 1023, 0, 0, 0⟩

/-- A state with nonzero stored tilt estimate and integral and the primed
filter delay line, about to trip fall detection. -/
def stFrozen : St := { St.init with fx := fxPrimed, tilt_rads := 2, tilt_int_rads := 1 }

/-- Balancing state at power-on defaults. -/
def stBal : St := { St.init with reset_complete := true }

/-- Level x reading while upright, used to exercise the balancing branch. -/
def inpC5 : Input := ⟨512, 504, 1023, 0, 0, 0⟩

/-- A state agreeing with `St.init` on the filter delay line but nowhere
else that matters (different integral, trim and mode). -/
def stAlt : St :=
  { St.init with
    tilt_rads := 3
    tilt_int_rads := 5
    tilt_pot := 100
    d_tilt_pot := 900
    reset_complete := true }

/-- Same x reading as `inpB`, different gyro/y/trim readings. -/
def inpA : Input := ⟨512, 700, 512, 0, 0, 0⟩

/-- Same x reading as `inpA`, different gyro/y/trim readings. -/
def inpB : Input := ⟨0, 700, 1023, 7, 8, 9⟩

section Proofs

attribute [local semireducible] Rat.add Rat.mul Rat.sub Rat.inv Rat.ofScientific

/-! Definitional projection lemmas for `tick` and `run`. -/

theorem run_succ (s : St) (u : ℕ → Input) (t : ℕ) :
    run s u (t + 1) = (tick (run s u t) (u t)).1 := rfl

theorem tick_reset_eq (s : St) (u : Input) :
    (tick s u).1.reset_complete = (ctlOf s u).reset_complete := rfl

theorem tick_tilt_eq (s : St) (u : Input) :
    (tick s u).1.tilt_rads = (ctlOf s u).tilt_rads := rfl

theorem tick_tilt_int_eq (s : St) (u : Input) :
    (tick s u).1.tilt_int_rads = (ctlOf s u).tilt_int_rads := rfl

theorem tick_speed_eq (s : St) (u : Input) :
    (tick s u).2.speedCmd = (ctlOf s u).speed := rfl

theorem tick_motor_a_eq (s : St) (u : Input) :
    (tick s u).2.motor_a_speed = (mapSpeed (ctlOf s u).speed).1 := rfl

theorem tick_motor_b_eq (s : St) (u : Input) :
    (tick s u).2.motor_b_speed = (mapSpeed (ctlOf s u).speed).2 := rfl

theorem tick_fallen_eq (s : St) (u : Input) :
    (tick s u).2.fallen = fallenAt s u := rfl

theorem tick_dir_a_eq (s : St) (u : Input) :
    (tick s u).2.dir_a = !decide ((ctlOf s u).speed < 0) := rfl

theorem tick_loop_eq (s : St) (u : Input) :
    (tick s u).1.loop_count = (if s.loop_count = 1500 then 0 else s.loop_count) + 1 := rfl

/-! Branch lemmas for the state machine. -/

theorem ctlOf_fallen (s : St) (u : Input) (h : fallenAt s u = true) :
    ctlOf s u =
      { speed := 0, tilt_rads := s.tilt_rads, tilt_int_rads := s.tilt_int_rads,
        reset_complete := false, last_speed := s.last_speed } := by
  simp [ctlOf, controlStep, h]

theorem ctlOf_await_band (s : St) (u : Input) (h1 : fallenAt s u = false)
    (h2 : s.reset_complete = false) (h3 : deadbandB (xGsOf u.x) = true) :
    ctlOf s u =
      { speed := 0, tilt_rads := xGsOf u.x, tilt_int_rads := 0,
        reset_complete := true, last_speed := s.last_speed } := by
  simp [ctlOf, controlStep, h1, h2, h3]

theorem ctlOf_await_noband (s : St) (u : Input) (h1 : fallenAt s u = false)
    (h2 : s.reset_complete = false) (h3 : deadbandB (xGsOf u.x) = false) :
    ctlOf s u =
      { speed := 0, tilt_rads := s.tilt_rads, tilt_int_rads := s.tilt_int_rads,
        reset_complete := s.reset_complete, last_speed := s.last_speed } := by
  simp [ctlOf, controlStep, h1, h2, h3]

theorem ctlOf_balance (s : St) (u : Input) (h1 : fallenAt s u = false)
    (h2 : s.reset_complete = true) :
    ctlOf s u =
      { speed := controlSpeed
          (s.tilt_rads + dTiltRadsOf s.gyro_offset_pot u.gyro + (filterx s.fx (xGsOf u.x)).2)
          (clampInt (s.tilt_int_rads +
            (s.tilt_rads + dTiltRadsOf s.gyro_offset_pot u.gyro + (filterx s.fx (xGsOf u.x)).2)))
          (dTiltRadsOf s.gyro_offset_pot u.gyro) s.tilt_pot s.d_tilt_pot,
        tilt_rads :=
          s.tilt_rads + dTiltRadsOf s.gyro_offset_pot u.gyro + (filterx s.fx (xGsOf u.x)).2,
        tilt_int_rads := clampInt (s.tilt_int_rads +
          (s.tilt_rads + dTiltRadsOf s.gyro_offset_pot u.gyro + (filterx s.fx (xGsOf u.x)).2)),
        reset_complete := s.reset_complete,
        last_speed := controlSpeed
          (s.tilt_rads + dTiltRadsOf s.gyro_offset_pot u.gyro + (filterx s.fx (xGsOf u.x)).2)
          (clampInt (s.tilt_int_rads +
            (s.tilt_rads + dTiltRadsOf s.gyro_offset_pot u.gyro + (filterx s.fx (xGsOf u.x)).2)))
          (dTiltRadsOf s.gyro_offset_pot u.gyro) s.tilt_pot s.d_tilt_pot } := by
  simp [ctlOf, controlStep, h1, h2]

theorem ctlOf_speed_zero (s : St) (u : Input)
    (h : s.reset_complete = false ∨ fallenAt s u = true) :
    (ctlOf s u).speed = 0 := by
  rcases h with h | h
  · cases hf : fallenAt s u
    · cases hd : deadbandB (xGsOf u.x)
      · rw [ctlOf_await_noband s u hf h hd]
      · rw [ctlOf_await_band s u hf h hd]
    · rw [ctlOf_fallen s u hf]
  · rw [ctlOf_fallen s u h]

theorem mapSpeed_zero : mapSpeed 0 = (0, 0) := by decide

theorem tick_duty_zero (s : St) (u : Input)
    (h : s.reset_complete = false ∨ fallenAt s u = true) :
    (tick s u).2.motor_a_speed = 0 ∧ (tick s u).2.motor_b_speed = 0 := by
  rw [tick_motor_a_eq, tick_motor_b_eq, ctlOf_speed_zero s u h, mapSpeed_zero]
  exact ⟨rfl, rfl⟩

theorem tick_reset_false (s : St) (u : Input) (h1 : s.reset_complete = false)
    (h2 : deadbandB (xGsOf u.x) = false) :
    (tick s u).1.reset_complete = false := by
  rw [tick_reset_eq]
  cases hf : fallenAt s u
  · rw [ctlOf_await_noband s u hf h1 h2]; exact h1
  · rw [ctlOf_fallen s u hf]

theorem reset_false_stays (s0 : St) (u : ℕ → Input) (a : ℕ)
    (ha : (run s0 u a).reset_complete = false) :
    ∀ b, a ≤ b → (∀ k, a ≤ k → k < b → deadbandB (xGsOf (u k).x) = false) →
      (run s0 u b).reset_complete = false := by
  intro b
  induction b with
  | zero =>
    intro hab _
    have h0 : a = 0 := Nat.le_zero.mp hab
    rw [← h0]; exact ha
  | succ n ih =>
    intro hab hnd
    rcases Nat.eq_or_lt_of_le hab with heq | hlt
    · rw [← heq]; exact ha
    · have hn : a ≤ n := Nat.lt_succ_iff.mp hlt
      have hr := ih hn (fun k hk1 hk2 => hnd k hk1 (Nat.lt_succ_of_lt hk2))
      rw [run_succ]
      exact tick_reset_false _ _ hr (hnd n hn (Nat.lt_succ_self n))

/-! Saturation bounds. -/

theorem MAX_TILT_INT_pos : (0 : ℚ) < MAX_TILT_INT := by decide

theorem clampInt_mem (q : ℚ) :
    -MAX_TILT_INT ≤ clampInt q ∧ clampInt q ≤ MAX_TILT_INT := by
  have hM : (0 : ℚ) ≤ MAX_TILT_INT := le_of_lt MAX_TILT_INT_pos
  unfold clampInt
  dsimp only
  split_ifs with h1 h2 h3 <;> constructor <;> linarith

theorem tick_tilt_int_mem (s : St) (u : Input)
    (h : -MAX_TILT_INT ≤ s.tilt_int_rads ∧ s.tilt_int_rads ≤ MAX_TILT_INT) :
    -MAX_TILT_INT ≤ (tick s u).1.tilt_int_rads ∧
      (tick s u).1.tilt_int_rads ≤ MAX_TILT_INT := by
  rw [tick_tilt_int_eq]
  cases hf : fallenAt s u
  · cases hr : s.reset_complete
    · cases hd : deadbandB (xGsOf u.x)
      · rw [ctlOf_await_noband s u hf hr hd]; exact h
      · rw [ctlOf_await_band s u hf hr hd]
        exact ⟨by simpa using le_of_lt MAX_TILT_INT_pos, le_of_lt MAX_TILT_INT_pos⟩
    · rw [ctlOf_balance s u hf hr]; exact clampInt_mem _
  · rw [ctlOf_fallen s u hf]; exact h

/-! Output-mapper bounds. -/

theorem capSpeed_mem (sp : ℚ) : 0 ≤ capSpeed sp ∧ capSpeed sp ≤ 255 := by
  have h0 : 0 ≤ 7 * Rat.sqrt |sp| := mul_nonneg (by norm_num) (Rat.sqrt_nonneg _)
  unfold capSpeed
  dsimp only
  split_ifs with h
  · exact ⟨by norm_num, le_refl _⟩
  · exact ⟨h0, le_of_not_lt h⟩

theorem truncQ_mem (q : ℚ) (h1 : 0 ≤ q) (h2 : q ≤ 255) :
    0 ≤ truncQ q ∧ truncQ q ≤ 255 := by
  unfold truncQ
  rw [if_pos h1]
  constructor
  · exact Int.le_floor.mpr (by exact_mod_cast h1)
  · have h3 : (⌊q⌋ : ℚ) ≤ 255 := le_trans (Int.floor_le q) h2
    exact_mod_cast h3

theorem clampDuty_mem (m : ℤ) (h1 : 0 ≤ m) (h2 : m ≤ 255) :
    0 ≤ clampDuty m ∧ clampDuty m ≤ 255 := by
  unfold clampDuty
  split_ifs with h <;> constructor <;> omega

theorem mapSpeed_mem (sp : ℚ) :
    0 ≤ (mapSpeed sp).1 ∧ (mapSpeed sp).1 ≤ 255 ∧
      0 ≤ (mapSpeed sp).2 ∧ (mapSpeed sp).2 ≤ 255 := by
  have hc := capSpeed_mem sp
  have hA : capSpeed sp * MOTOR_A_FACTOR = capSpeed sp := by
    unfold MOTOR_A_FACTOR; rw [mul_one]
  have hB : capSpeed sp * MOTOR_B_FACTOR = capSpeed sp := by
    unfold MOTOR_B_FACTOR; rw [mul_one]
  have ht := truncQ_mem (capSpeed sp) hc.1 hc.2
  have hd := clampDuty_mem (truncQ (capSpeed sp)) ht.1 ht.2
  unfold mapSpeed
  rw [hA, hB]
  exact ⟨hd.1, hd.2, hd.1, hd.2⟩

/-! The claims. -/

/-- C1: on any tick where the Fallen condition (`accel_y_g < 0.1` and
`|filtered accel_x| > 0.6`) is detected, both motor duty outputs written
on that same tick are 0, and they stay 0 on every subsequent tick until
a tick on which the re-level deadband condition
`-0.02 < accel_x_g < 0.02` is observed. -/
theorem C1_fall_forces_zero_duty (s0 : St) (u : ℕ → Input) (t tp : ℕ)
    (hf : (outAt s0 u t).fallen = true) (hle : t ≤ tp)
    (hnd : ∀ k, t < k → k ≤ tp → deadbandB (xGsOf (u k).x) = false) :
    (outAt s0 u t).motor_a_speed = 0 ∧ (outAt s0 u t).motor_b_speed = 0 ∧
    (outAt s0 u tp).motor_a_speed = 0 ∧ (outAt s0 u tp).motor_b_speed = 0 := by
  have hf' : fallenAt (run s0 u t) (u t) = true := hf
  have h0 := tick_duty_zero (run s0 u t) (u t) (Or.inr hf')
  have htp : (outAt s0 u tp).motor_a_speed = 0 ∧ (outAt s0 u tp).motor_b_speed = 0 := by
    rcases Nat.eq_or_lt_of_le hle with heq | hlt
    · rw [← heq]; exact h0
    · have h1 : (run s0 u (t + 1)).reset_complete = false := by
        rw [run_succ, tick_reset_eq, ctlOf_fallen _ _ hf']
      have h2 : (run s0 u tp).reset_complete = false :=
        reset_false_stays s0 u (t + 1) h1 tp hlt
          (fun k hk1 hk2 => hnd k (by omega) (by omega))
      exact tick_duty_zero _ _ (Or.inl h2)
  exact ⟨h0.1, h0.2, htp.1, htp.2⟩

/-- Witness for C1: from the primed filter state, tick 0 trips fall
detection and ticks 0 and 2 both write zero duty (the constant input
never enters the deadband). -/
theorem C1_witness :
    (outAt stPrimed uFall 0).motor_a_speed = 0 ∧
    (outAt stPrimed uFall 0).motor_b_speed = 0 ∧
    (outAt stPrimed uFall 2).motor_a_speed = 0 ∧
    (outAt stPrimed uFall 2).motor_b_speed = 0 :=
  C1_fall_forces_zero_duty stPrimed uFall 0 2 (by decide) (by decide)
    (fun k h1 h2 => show deadbandB (xGsOf 1023) = false by decide)

/-- C2: for every sequence of sensor inputs and trim-pot values, the
stored tilt integral `tilt_int_rads` lies within
`[-MAX_TILT_INT, +MAX_TILT_INT]` after every tick, starting from its
initial value 0. -/
theorem C2_tilt_int_saturates (u : ℕ → Input) (t : ℕ) :
    -MAX_TILT_INT ≤ (run St.init u t).tilt_int_rads ∧
      (run St.init u t).tilt_int_rads ≤ MAX_TILT_INT := by
  induction t with
  | zero =>
    exact ⟨(by decide : -MAX_TILT_INT ≤ (0 : ℚ)), (by decide : (0 : ℚ) ≤ MAX_TILT_INT)⟩
  | succ n ih =>
    rw [run_succ]
    exact tick_tilt_int_mem _ _ ih

/-- C3: on every tick, for every possible speed command, the two
duty-cycle values written to the motor outputs are each in `[0, 255]`. -/
theorem C3_duty_in_range :
    (∀ sp : ℚ, 0 ≤ (mapSpeed sp).1 ∧ (mapSpeed sp).1 ≤ 255 ∧
      0 ≤ (mapSpeed sp).2 ∧ (mapSpeed sp).2 ≤ 255) ∧
    ∀ (s : St) (u : Input),
      0 ≤ (tick s u).2.motor_a_speed ∧ (tick s u).2.motor_a_speed ≤ 255 ∧
      0 ≤ (tick s u).2.motor_b_speed ∧ (tick s u).2.motor_b_speed ≤ 255 := by
  refine ⟨mapSpeed_mem, fun s u => ?_⟩
  rw [tick_motor_a_eq, tick_motor_b_eq]
  exact mapSpeed_mem _

/-- C4 counterexample: the raw inputs `y = 512`, `x = 700` give
`accel_y_g = 0` and `|accel_x_g| ≈ 0.65 > 0.6`, yet from the power-on
state that single tick does not enter the Fallen branch, because fall
detection tests the FILTERED x value, which is still tiny. -/
theorem C4_counterexample :
    yGsOf 512 = 0 ∧ (0.6 : ℚ) < |xGsOf 700| ∧
    (tick St.init ⟨512, 700, 512, 0, 0, 0⟩).2.fallen = false := by
  exact ⟨by decide, by decide, by decide⟩

/-- C4 amended: starting from any prior state (including a nonzero tilt
integral), a single tick whose raw inputs correspond to `accel_y_g = 0`
and whose FILTERED accel_x value on that tick exceeds 0.6 in magnitude
causes the system to enter the Fallen state on that tick and to write
zero duty to both motors on that same tick. -/
theorem C4_amended_filtered_fall (s : St) (u : Input)
    (hy : yGsOf u.y = 0) (hx : (0.6 : ℚ) < |(filterx s.fx (xGsOf u.x)).2|) :
    (tick s u).2.fallen = true ∧ (tick s u).2.speedCmd = 0 ∧
    (tick s u).2.motor_a_speed = 0 ∧ (tick s u).2.motor_b_speed = 0 := by
  have hylt : yGsOf u.y < 0.1 := by rw [hy]; decide
  have hf : fallenAt s u = true := by
    unfold fallenAt
    rw [decide_eq_true hylt, decide_eq_true hx]
    rfl
  have hsp : (tick s u).2.speedCmd = 0 := by
    rw [tick_speed_eq, ctlOf_fallen s u hf]
  have hd := tick_duty_zero s u (Or.inr hf)
  exact ⟨by rw [tick_fallen_eq]; exact hf, hsp, hd.1, hd.2⟩

/-- Witness for C4 (amended) at the primed filter state with a level x
reading and `y = 512`. -/
theorem C4_witness :
    (tick stPrimed ⟨512, 504, 512, 0, 0, 0⟩).2.fallen = true ∧
    (tick stPrimed ⟨512, 504, 512, 0, 0, 0⟩).2.speedCmd = 0 ∧
    (tick stPrimed ⟨512, 504, 512, 0, 0, 0⟩).2.motor_a_speed = 0 ∧
    (tick stPrimed ⟨512, 504, 512, 0, 0, 0⟩).2.motor_b_speed = 0 :=
  C4_amended_filtered_fall stPrimed ⟨512, 504, 512, 0, 0, 0⟩ (by decide) (by decide)

/-- C5 counterexample: the integral gain is NOT derived from any
runtime-adjustable trim value.  With zero tilt and zero rate and unit
integral the speed command is exactly the integral gain, and it is the
same fixed constant `TILT_INT_FACT` at the extreme trim settings 0 and
1023 (the source computes `TILT_INT_FACT` from the literal `512.0`, not
from a pot variable). -/
theorem C5_counterexample :
    controlSpeed 0 1 0 0 0 = TILT_INT_FACT ∧
    controlSpeed 0 1 0 1023 1023 = TILT_INT_FACT ∧
    controlSpeed 0 1 0 0 0 = controlSpeed 0 1 0 1023 1023 := by
  exact ⟨by decide, by decide, by decide⟩

/-- C5 amended: in the Balancing state the speed command equals
`tilt_rad * K_p + tilt_integral * K_i + gyro_rate_term * K_d`, where
`K_p = TILT_FACT tilt_pot` and `K_d = D_TILT_FACT d_tilt_pot` are each
derived from a runtime-adjustable trim value (and do take different
values for different trim settings), while `K_i = TILT_INT_FACT` is a
fixed constant independent of every trim value. -/
theorem C5_amended_speed_formula (s : St) (u : Input)
    (h1 : fallenAt s u = false) (h2 : s.reset_complete = true) :
    (tick s u).2.speedCmd =
      (tick s u).1.tilt_rads * TILT_FACT s.tilt_pot +
      (tick s u).1.tilt_int_rads * TILT_INT_FACT +
      dTiltRadsOf s.gyro_offset_pot u.gyro * D_TILT_FACT s.d_tilt_pot ∧
    TILT_FACT 256 ≠ TILT_FACT 768 ∧ D_TILT_FACT 256 ≠ D_TILT_FACT 768 := by
  refine ⟨?_, by decide, by decide⟩
  rw [tick_speed_eq, tick_tilt_eq, tick_tilt_int_eq, ctlOf_balance s u h1 h2]
  rfl

/-- Witness for C5 (amended) in the balancing state at power-on trim
defaults. -/
theorem C5_witness :
    (tick stBal inpC5).2.speedCmd =
      (tick stBal inpC5).1.tilt_rads * TILT_FACT stBal.tilt_pot +
      (tick stBal inpC5).1.tilt_int_rads * TILT_INT_FACT +
      dTiltRadsOf stBal.gyro_offset_pot inpC5.gyro * D_TILT_FACT stBal.d_tilt_pot ∧
    TILT_FACT 256 ≠ TILT_FACT 768 ∧ D_TILT_FACT 256 ≠ D_TILT_FACT 768 :=
  C5_amended_speed_formula stBal inpC5 (by decide) rfl

/-- C6: while awaiting upright (`reset_complete` false, Fallen condition
absent), the system transitions to Balancing on a tick if and only if
`-0.02 < accel_x_g < 0.02` holds on that tick, at which instant
`tilt_rads` is seeded to `accel_x_g` and `tilt_int_rads` to 0; and for
every input sequence whose `accel_x_g` never enters the deadband, the
system never leaves the awaiting state. -/
theorem C6_deadband_gates_balancing :
    (∀ (s : St) (u : Input), fallenAt s u = false → s.reset_complete = false →
      (((tick s u).1.reset_complete = true) ↔ deadbandB (xGsOf u.x) = true) ∧
      (deadbandB (xGsOf u.x) = true →
        (tick s u).1.tilt_rads = xGsOf u.x ∧ (tick s u).1.tilt_int_rads = 0)) ∧
    ∀ (u : ℕ → Input), (∀ t, deadbandB (xGsOf (u t).x) = false) →
      ∀ t, (run St.init u t).reset_complete = false := by
  constructor
  · intro s u hf hr
    constructor
    · constructor
      · intro h
        cases hd : deadbandB (xGsOf u.x)
        · exfalso
          have h2 := tick_reset_false s u hr hd
          rw [h] at h2
          exact Bool.noConfusion h2
        · rfl
      · intro hd
        rw [tick_reset_eq, ctlOf_await_band s u hf hr hd]
    · intro hd
      rw [tick_tilt_eq, tick_tilt_int_eq, ctlOf_await_band s u hf hr hd]
      exact ⟨rfl, rfl⟩
  · intro u hnd t
    exact reset_false_stays St.init u 0 rfl t (Nat.zero_le t) (fun k _ _ => hnd k)

/-- Witness for C6: the level input flips `reset_complete` and seeds the
estimate; the never-level stream keeps `reset_complete` false at tick 3. -/
theorem C6_witness :
    (((tick St.init inpLevel).1.reset_complete = true) ↔
      deadbandB (xGsOf inpLevel.x) = true) ∧
    ((tick St.init inpLevel).1.tilt_rads = xGsOf inpLevel.x ∧
      (tick St.init inpLevel).1.tilt_int_rads = 0) ∧
    (run St.init uNoBand 3).reset_complete = false :=
  ⟨(C6_deadband_gates_balancing.1 St.init inpLevel (by decide) rfl).1,
   (C6_deadband_gates_balancing.1 St.init inpLevel (by decide) rfl).2 (by decide),
   C6_deadband_gates_balancing.2 uNoBand
     (fun t => show deadbandB (xGsOf 1023) = false by decide) 3⟩

set_option maxRecDepth 100000 in
/-- C7 counterexample: a reachable run (re-level at tick 0, balance with
a hard-right reading through tick 19, topple at tick 20) reaches the
Fallen condition while the stored integral sits at its positive clamp;
the Fallen tick leaves the integral unchanged and NONZERO, refuting
"the tilt integral is held at 0" while Fallen. -/
theorem C7_counterexample :
    fallenAt (run St.init uC7 20) (uC7 20) = true ∧
    (run St.init uC7 20).reset_complete = true ∧
    (run St.init uC7 21).tilt_int_rads = (run St.init uC7 20).tilt_int_rads ∧
    (run St.init uC7 21).tilt_int_rads ≠ 0 := by decide

/-- C7 amended: on every tick in which the system is in the Fallen or
AwaitingUpright state (and no transition to Balancing occurs), the
stored tilt estimate and the stored tilt integral are both left
unchanged (frozen, not zeroed); the integral is reset to 0 only at the
transition into Balancing. -/
theorem C7_amended_estimate_frozen (s : St) (u : Input)
    (h : fallenAt s u = true ∨
      (fallenAt s u = false ∧ s.reset_complete = false ∧
        deadbandB (xGsOf u.x) = false)) :
    (tick s u).1.tilt_rads = s.tilt_rads ∧
      (tick s u).1.tilt_int_rads = s.tilt_int_rads := by
  rw [tick_tilt_eq, tick_tilt_int_eq]
  rcases h with h | ⟨h1, h2, h3⟩
  · rw [ctlOf_fallen s u h]; exact ⟨rfl, rfl⟩
  · rw [ctlOf_await_noband s u h1 h2 h3]; exact ⟨rfl, rfl⟩

/-- Witness for C7 (amended): a Fallen tick from a state with nonzero
stored tilt estimate and integral leaves both untouched. -/
theorem C7_witness :
    (tick stFrozen inpFall).1.tilt_rads = stFrozen.tilt_rads ∧
    (tick stFrozen inpFall).1.tilt_int_rads = stFrozen.tilt_int_rads :=
  C7_amended_estimate_frozen stFrozen inpFall (Or.inl (by decide))

/-- C8: `d_tilt_pot` is re-sampled exactly on ticks where the
free-running counter equals 500, `tilt_pot` exactly at 1000, and
`gyro_offset_pot` exactly at 1500 (where the counter is reset to 0 and
then incremented); no trim is written on any other tick, and after `t+1`
ticks the counter is `t % 1500 + 1`, so each slot recurs exactly every
1500 ticks. -/
theorem C8_calibration_schedule :
    (∀ (s : St) (u : Input),
      ((tick s u).1.d_tilt_pot = if s.loop_count = 500 then u.a3 else s.d_tilt_pot) ∧
      ((tick s u).1.tilt_pot = if s.loop_count = 1000 then u.a5 else s.tilt_pot) ∧
      ((tick s u).1.gyro_offset_pot =
        if s.loop_count = 1500 then u.a4 else s.gyro_offset_pot) ∧
      ((tick s u).1.loop_count =
        (if s.loop_count = 1500 then 0 else s.loop_count) + 1)) ∧
    ∀ (u : ℕ → Input) (t : ℕ),
      (run St.init u (t + 1)).loop_count = (t : ℤ) % 1500 + 1 := by
  constructor
  · intro s u
    exact ⟨rfl, rfl, rfl, rfl⟩
  · intro u t
    induction t with
    | zero =>
      rw [run_succ, tick_loop_eq]
      show (if (0 : ℤ) = 1500 then (0 : ℤ) else 0) + 1 = ((0 : ℕ) : ℤ) % 1500 + 1
      norm_num
    | succ n ih =>
      rw [run_succ, tick_loop_eq, ih]
      split_ifs with h <;> omega

/-- C9: the x-axis filter is deterministic and depends only on its own
delay-line state and its input: two runs over equal input sequences from
the zeroed delay line produce identical outputs, and within a tick the
filter result is unchanged by any difference in the rest of the system
state or the other sensor readings. -/
theorem C9_filter_deterministic :
    (∀ ins1 ins2 : List ℚ, ins1 = ins2 →
      filterxList FilterState.init ins1 = filterxList FilterState.init ins2) ∧
    ∀ (s1 s2 : St) (u1 u2 : Input), s1.fx = s2.fx → u1.x = u2.x →
      (tick s1 u1).1.fx = (tick s2 u2).1.fx ∧
      (tick s1 u1).1.x_filt_gs = (tick s2 u2).1.x_filt_gs := by
  constructor
  · intro ins1 ins2 h
    rw [h]
  · intro s1 s2 u1 u2 hfx hx
    constructor
    · show (filterx s1.fx (xGsOf u1.x)).1 = (filterx s2.fx (xGsOf u2.x)).1
      rw [hfx, hx]
    · show (filterx s1.fx (xGsOf u1.x)).2 = (filterx s2.fx (xGsOf u2.x)).2
      rw [hfx, hx]

/-- Witness for C9: a 3-sample double run, and one tick from two states
agreeing only on the delay line and the x reading. -/
theorem C9_witness :
    filterxList FilterState.init [1, 2, 3] = filterxList FilterState.init [1, 2, 3] ∧
    (tick St.init inpA).1.fx = (tick stAlt inpB).1.fx ∧
    (tick St.init inpA).1.x_filt_gs = (tick stAlt inpB).1.x_filt_gs :=
  ⟨C9_filter_deterministic.1 [1, 2, 3] [1, 2, 3] rfl,
   (C9_filter_deterministic.2 St.init stAlt inpA inpB rfl rfl).1,
   (C9_filter_deterministic.2 St.init stAlt inpA inpB rfl rfl).2⟩

/-- C10: on every tick the two motor direction outputs are written with
the same value as each other: both LOW (false) exactly when the
pre-mapped speed command is negative, and both HIGH (true) otherwise,
including when the speed command is exactly 0. -/
theorem C10_directions_agree (s : St) (u : Input) :
    (tick s u).2.dir_a = (tick s u).2.dir_b ∧
    ((tick s u).2.dir_a = false ↔ (tick s u).2.speedCmd < 0) := by
  constructor
  · rfl
  · rw [tick_dir_a_eq, tick_speed_eq]
    simp

end Proofs

end ArduRoller
